import Mathlib

/-
Shallow embedding of src/share/hid_manager.hpp (class krbn::hid_manager).

The manager owns:
  - manager_            : IOHIDManagerRef, modelled as a Bool (session open or not);
  - registry_entry_ids_ : std::unordered_map<IOHIDDeviceRef, registry_entry_id>,
                          modelled as an association list with unique keys;
  - hids_               : std::unordered_map<registry_entry_id,
                          std::shared_ptr<human_interface_device>>, likewise;
  - refresh_timer_      : the periodic timer, modelled as a Bool.

Native handles (IOHIDDeviceRef) and registry entry ids are modelled as Nat;
the value 0 plays the role of the null pointer for the `if (!device)` guards.
The external collaborators (the device_detecting signal combiner, the OS query
iokit_utility::find_registry_entry_id, IOHIDManagerCreate success, and
human_interface_device::validate) are collected in an `Env` record.
Outward signal emissions (device_detected, device_removed) are collected in an
`Output` record returned next to the new state.
-/

namespace HidManager

abbrev IOHIDDeviceRef := Nat
abbrev RegistryEntryId := Nat

/-- Model of krbn::human_interface_device as far as hid_manager uses it:
the constructor arguments (device, registry_entry_id) and the removed flag
set by set_removed(). -/
structure HumanInterfaceDevice where
  device : IOHIDDeviceRef
  registry_entry_id : RegistryEntryId
  removed : Bool
deriving DecidableEq, Repr

/-- Lookup in an association list modelling std::unordered_map::find. -/
def mapFind {β : Type} (k : Nat) : List (Nat × β) → Option β
  | [] => none
  | (k2, v) :: rest => if k2 = k then some v else mapFind k rest

/-- Insert-or-assign, modelling std::unordered_map::operator[] followed by
assignment: an existing entry for the key is overwritten in place, a missing
key is appended. -/
def upsert {β : Type} (k : Nat) (v : β) : List (Nat × β) → List (Nat × β)
  | [] => [(k, v)]
  | (k2, v2) :: rest => if k2 = k then (k, v) :: rest else (k2, v2) :: upsert k v rest

/-- Erase every entry with the given key, modelling
std::unordered_map::erase(it). An unordered_map holds at most one entry per
key, so on the association lists the manager actually builds this removes
exactly the one entry found by mapFind. -/
def eraseKey {β : Type} (k : Nat) : List (Nat × β) → List (Nat × β)
  | [] => []
  | (k2, v) :: rest => if k2 = k then eraseKey k rest else (k2, v) :: eraseKey k rest

/-- The erase loop at the end of device_removal_callback: drop every entry
whose mapped registry_entry_id equals rid, keep the others in order. -/
def purgeValue (rid : RegistryEntryId) : List (IOHIDDeviceRef × RegistryEntryId) → List (IOHIDDeviceRef × RegistryEntryId)
  | [] => []
  | (d, r) :: rest => if r = rid then purgeValue rid rest else (d, r) :: purgeValue rid rest

/-- Number of entries of the map carrying the given key. -/
def countKey {β : Type} (k : Nat) (m : List (Nat × β)) : Nat :=
  (m.filter (fun p => p.1 == k)).length

/-- The mutable state of one hid_manager object. -/
structure State where
  manager : Bool
  registry_entry_ids : List (IOHIDDeviceRef × RegistryEntryId)
  hids : List (RegistryEntryId × HumanInterfaceDevice)
  refresh_timer : Bool
deriving DecidableEq, Repr

/-- Outward signal emissions performed by one operation. -/
structure Output where
  detected : List HumanInterfaceDevice
  removed : List HumanInterfaceDevice
deriving DecidableEq, Repr

def Output.empty : Output := { detected := [], removed := [] }

/-- External collaborators of hid_manager: the combined result of the
device_detecting pre-filter signal, the OS query
iokit_utility::find_registry_entry_id used in the matching callback, whether
IOHIDManagerCreate succeeds, and human_interface_device::validate. -/
structure Env where
  device_detecting : IOHIDDeviceRef → Bool
  os_find_registry_entry_id : IOHIDDeviceRef → Option RegistryEntryId
  manager_create_succeeds : Bool
  validate : HumanInterfaceDevice → Bool

/-- State of a freshly constructed hid_manager: manager_ is nullptr and the
maps are empty. -/
def State.initial : State :=
  { manager := false, registry_entry_ids := [], hids := [], refresh_timer := false }

/-- hid_manager::stop: cancel the timer, release the native session, clear
both maps. The body performs no signal emission. -/
def stop (s : State) : State × Output :=
  ({ s with refresh_timer := false,
            manager := false,
            registry_entry_ids := [],
            hids := [] },
   Output.empty)

/-- hid_manager::start: if already running, stop first; then IOHIDManagerCreate,
which may fail (logged, early return, no timer); on success register the
callbacks and schedule the refresh timer. -/
def start (env : Env) (s : State) : State × Output :=
  let s1 := if s.manager then (stop s).1 else s
  if env.manager_create_succeeds then
    ({ s1 with manager := true, refresh_timer := true }, Output.empty)
  else
    ({ s1 with manager := false }, Output.empty)

/-- hid_manager::find_registry_entry_id: lookup in the cached
registry_entry_ids_ map only. -/
def find_registry_entry_id (s : State) (device : IOHIDDeviceRef) : Option RegistryEntryId :=
  mapFind device s.registry_entry_ids

/-- hid_manager::device_matching_callback: null guard, pre-filter veto, OS
identity resolution, unconditional recording of the handle-to-identity
mapping, dedup on registry_entry_id, creation plus device_detected emission
for a new logical device. -/
def device_matching_callback (env : Env) (s : State) (device : IOHIDDeviceRef) : State × Output :=
  if device = 0 then (s, Output.empty)
  else if env.device_detecting device then
    match env.os_find_registry_entry_id device with
    | none => (s, Output.empty)
    | some rid =>
      let s1 := { s with registry_entry_ids := upsert device rid s.registry_entry_ids }
      match mapFind rid s1.hids with
      | some _ => (s1, Output.empty)
      | none =>
        let hid : HumanInterfaceDevice :=
          { device := device, registry_entry_id := rid, removed := false }
        ({ s1 with hids := upsert rid hid s1.hids },
         { detected := [hid], removed := [] })
  else (s, Output.empty)

/-- hid_manager::device_removal_callback: null guard, cached identity lookup
(never the OS query), eviction of the logical device with set_removed and a
device_removed emission when one exists, then the purge of every
registry_entry_ids_ entry sharing the identity. The Env argument mirrors the
collaborators being in scope; the body of the callback does not consult it. -/
def device_removal_callback (env : Env) (s : State) (device : IOHIDDeviceRef) : State × Output :=
  if device = 0 then (s, Output.empty)
  else
    match find_registry_entry_id s device with
    | none => (s, Output.empty)
    | some rid =>
      match mapFind rid s.hids with
      | some hid =>
        ({ s with hids := eraseKey rid s.hids,
                  registry_entry_ids := purgeValue rid s.registry_entry_ids },
         { detected := [], removed := [{ hid with removed := true }] })
      | none =>
        ({ s with registry_entry_ids := purgeValue rid s.registry_entry_ids },
         Output.empty)

/-- The loop body of hid_manager::refresh_if_needed: walk hids_, and on the
first entry failing validate(), call start() and break out of the loop. -/
def refresh_loop (env : Env) (s : State) : List (RegistryEntryId × HumanInterfaceDevice) → State × Output
  | [] => (s, Output.empty)
  | (_, hid) :: rest =>
    if env.validate hid then refresh_loop env s rest
    else start env s

/-- hid_manager::refresh_if_needed: validate every tracked device, restart the
whole session on the first invalid one. -/
def refresh_if_needed (env : Env) (s : State) : State × Output :=
  refresh_loop env s s.hids

/-- Driver for a sequence of arrival callbacks, concatenating the emissions. -/
def run_arrivals (env : Env) (s : State) : List IOHIDDeviceRef → State × Output
  | [] => (s, Output.empty)
  | d :: rest =>
    let r1 := device_matching_callback env s d
    let r2 := run_arrivals env r1.1 rest
    (r2.1, { detected := r1.2.detected ++ r2.2.detected,
             removed := r1.2.removed ++ r2.2.removed })

theorem mapFind_upsert_self {β : Type} (k : Nat) (v : β) (m : List (Nat × β)) :
    mapFind k (upsert k v m) = some v := by
  induction m with
  | nil => simp [upsert, mapFind]
  | cons p rest ih =>
    by_cases h : p.1 = k
    · simp [upsert, mapFind, h]
    · simp [upsert, mapFind, h, ih]

theorem upsert_of_find_none {β : Type} (k : Nat) (v : β) (m : List (Nat × β))
    (h : mapFind k m = none) : upsert k v m = m ++ [(k, v)] := by
  induction m with
  | nil => simp [upsert]
  | cons p rest ih =>
    by_cases hk : p.1 = k
    · simp [mapFind, hk] at h
    · simp [mapFind, hk] at h
      simp [upsert, hk, ih h]

theorem countKey_of_find_none {β : Type} (k : Nat) (m : List (Nat × β))
    (h : mapFind k m = none) : countKey k m = 0 := by
  induction m with
  | nil => simp [countKey]
  | cons p rest ih =>
    by_cases hk : p.1 = k
    · simp [mapFind, hk] at h
    · simp [mapFind, hk] at h
      have hstep : countKey k (p :: rest) = countKey k rest := by
        simp [countKey, List.filter_cons, hk]
      rw [hstep]
      exact ih h

theorem countKey_append {β : Type} (k : Nat) (m1 m2 : List (Nat × β)) :
    countKey k (m1 ++ m2) = countKey k m1 + countKey k m2 := by
  simp [countKey, List.filter_append]

theorem mapFind_eraseKey_self {β : Type} (k : Nat) (m : List (Nat × β)) :
    mapFind k (eraseKey k m) = none := by
  induction m with
  | nil => simp [eraseKey, mapFind]
  | cons p rest ih =>
    by_cases hk : p.1 = k
    · simp [eraseKey, hk, ih]
    · simp [eraseKey, mapFind, hk, ih]

theorem purgeValue_all_ne (rid : RegistryEntryId)
    (m : List (IOHIDDeviceRef × RegistryEntryId)) :
    ((purgeValue rid m).all (fun p => p.2 != rid)) = true := by
  induction m with
  | nil => simp [purgeValue]
  | cons p rest ih =>
    by_cases hr : p.2 = rid
    · simp [purgeValue, hr, ih]
    · simp [purgeValue, hr, ih]

theorem matching_callback_existing (env : Env) (s : State) (d : IOHIDDeviceRef)
    (rid : RegistryEntryId) (x : HumanInterfaceDevice)
    (h0 : d ≠ 0) (h1 : env.device_detecting d = true)
    (h2 : env.os_find_registry_entry_id d = some rid)
    (h3 : mapFind rid s.hids = some x) :
    device_matching_callback env s d =
      ({ s with registry_entry_ids := upsert d rid s.registry_entry_ids }, Output.empty) := by
  simp [device_matching_callback, h0, h1, h2, h3]

theorem matching_callback_new (env : Env) (s : State) (d : IOHIDDeviceRef)
    (rid : RegistryEntryId)
    (h0 : d ≠ 0) (h1 : env.device_detecting d = true)
    (h2 : env.os_find_registry_entry_id d = some rid)
    (h3 : mapFind rid s.hids = none) :
    device_matching_callback env s d =
      ({ s with registry_entry_ids := upsert d rid s.registry_entry_ids,
                hids := upsert rid
                  { device := d, registry_entry_id := rid, removed := false } s.hids },
       { detected := [{ device := d, registry_entry_id := rid, removed := false }],
         removed := [] }) := by
  simp [device_matching_callback, h0, h1, h2, h3]

theorem run_arrivals_existing (env : Env) (rid : RegistryEntryId) (x : HumanInterfaceDevice)
    (ds : List IOHIDDeviceRef) :
    ∀ s : State,
      (∀ d ∈ ds, d ≠ 0 ∧ env.device_detecting d = true ∧
        env.os_find_registry_entry_id d = some rid) →
      mapFind rid s.hids = some x →
      (run_arrivals env s ds).1.hids = s.hids ∧ (run_arrivals env s ds).2.detected = [] := by
  induction ds with
  | nil =>
    intro s _ _
    simp [run_arrivals, Output.empty]
  | cons d rest ih =>
    intro s hall h3
    obtain ⟨hd0, hd1, hd2⟩ := hall d (by simp)
    have hmatch := matching_callback_existing env s d rid x hd0 hd1 hd2 h3
    have hrest := ih { s with registry_entry_ids := upsert d rid s.registry_entry_ids }
      (fun d2 hmem => hall d2 (by simp [hmem])) (by simpa using h3)
    simp only [run_arrivals, hmatch]
    refine ⟨hrest.1, ?_⟩
    simp [Output.empty, hrest.2]

/-- Claim C1: for every sequence of non-vetoed arrival callbacks whose native
handles all resolve to one stable identity not yet tracked, exactly one
device_detected emission happens over the whole sequence and exactly one entry
for that identity exists in hids_ afterwards; arrivals after the first neither
emit nor create. -/
theorem arrival_dedup_single_detection (env : Env) (s : State)
    (rid : RegistryEntryId) (ds : List IOHIDDeviceRef)
    (hne : ds ≠ [])
    (hall : ∀ d ∈ ds, d ≠ 0 ∧ env.device_detecting d = true ∧
      env.os_find_registry_entry_id d = some rid)
    (h0 : mapFind rid s.hids = none) :
    (run_arrivals env s ds).2.detected.length = 1 ∧
    countKey rid (run_arrivals env s ds).1.hids = 1 := by
  cases ds with
  | nil => exact absurd rfl hne
  | cons d rest =>
    obtain ⟨hd0, hd1, hd2⟩ := hall d (by simp)
    have hmatch := matching_callback_new env s d rid hd0 hd1 hd2 h0
    set hid : HumanInterfaceDevice :=
      { device := d, registry_entry_id := rid, removed := false } with hhid
    set s1 : State :=
      { s with registry_entry_ids := upsert d rid s.registry_entry_ids,
               hids := upsert rid hid s.hids } with hs1
    have hfound : mapFind rid s1.hids = some hid := by
      simpa [hs1] using mapFind_upsert_self rid hid s.hids
    have hrest := run_arrivals_existing env rid hid rest s1
      (fun d2 hmem => hall d2 (by simp [hmem])) hfound
    have hcount : countKey rid s1.hids = 1 := by
      have happ : upsert rid hid s.hids = s.hids ++ [(rid, hid)] :=
        upsert_of_find_none rid hid s.hids h0
      have h0c : countKey rid s.hids = 0 := countKey_of_find_none rid s.hids h0
      have hsplit : countKey rid (upsert rid hid s.hids) =
          countKey rid s.hids + countKey rid [(rid, hid)] := by
        rw [happ, countKey_append]
      rw [show s1.hids = upsert rid hid s.hids from rfl, hsplit, h0c]
      simp [countKey, List.filter_cons]
    constructor
    · simp only [run_arrivals, hmatch]
      simp [hrest.2]
    · simp only [run_arrivals, hmatch]
      rw [hrest.1]
      exact hcount

/-- Claim C2: after a removal callback for one native handle whose identity is
cached, no entry of registry_entry_ids_ maps to that identity any more, also
when no logical device was found for it. -/
theorem removal_purges_all_handles (env : Env) (s : State) (d : IOHIDDeviceRef)
    (rid : RegistryEntryId)
    (h0 : d ≠ 0) (h1 : mapFind d s.registry_entry_ids = some rid) :
    ((device_removal_callback env s d).1.registry_entry_ids.all
      (fun p => p.2 != rid)) = true := by
  cases hh : mapFind rid s.hids with
  | none =>
    simp only [device_removal_callback, find_registry_entry_id, h0, h1, hh, if_neg h0]
    exact purgeValue_all_ne rid s.registry_entry_ids
  | some hid =>
    simp only [device_removal_callback, find_registry_entry_id, h0, h1, hh, if_neg h0]
    exact purgeValue_all_ne rid s.registry_entry_ids

/-- Claim C3: the removal callback resolves the identity from the cached map
only, independent of the OS collaborators, and when a logical device exists
for the identity it is dropped from hids_, marked removed, and exactly one
device_removed emission carries it. -/
theorem removal_cached_lookup_and_notifies (env env2 : Env) (s : State)
    (d : IOHIDDeviceRef) (rid : RegistryEntryId) (hid : HumanInterfaceDevice)
    (h0 : d ≠ 0) (h1 : mapFind d s.registry_entry_ids = some rid)
    (h2 : mapFind rid s.hids = some hid) :
    device_removal_callback env s d = device_removal_callback env2 s d ∧
    mapFind rid (device_removal_callback env s d).1.hids = none ∧
    (device_removal_callback env s d).2.removed = [{ hid with removed := true }] := by
  refine ⟨rfl, ?_, ?_⟩
  · simp only [device_removal_callback, find_registry_entry_id, h1, h2, if_neg h0]
    exact mapFind_eraseKey_self rid s.hids
  · simp only [device_removal_callback, find_registry_entry_id, h1, h2, if_neg h0]

/-- Claim C10: a removal callback for a native handle absent from the cached
map changes nothing and emits nothing. -/
theorem removal_unknown_handle_noop (env : Env) (s : State) (d : IOHIDDeviceRef)
    (h : mapFind d s.registry_entry_ids = none) :
    device_removal_callback env s d = (s, Output.empty) := by
  by_cases hd : d = 0
  · simp [device_removal_callback, hd]
  · simp [device_removal_callback, find_registry_entry_id, hd, h]

theorem refresh_loop_invalid (env : Env) (s : State)
    (l : List (RegistryEntryId × HumanInterfaceDevice))
    (hinv : ∃ p ∈ l, env.validate p.2 = false) :
    refresh_loop env s l = start env s := by
  induction l with
  | nil => simp at hinv
  | cons p rest ih =>
    by_cases hv : env.validate p.2 = true
    · have : ∃ q ∈ rest, env.validate q.2 = false := by
        rcases hinv with ⟨q, hq, hqv⟩
        rcases List.mem_cons.mp hq with hq1 | hq2
        · rw [hq1] at hqv; rw [hqv] at hv; exact absurd hv (by simp)
        · exact ⟨q, hq2, hqv⟩
      cases p with
      | mk k hid => simp only [refresh_loop, hv, if_pos]; exact ih this
    · cases p with
      | mk k hid =>
        simp only [refresh_loop]
        rw [if_neg hv]

/-- Claim C4: when some tracked device fails validate() during a
reconciliation pass on a running manager, the pass behaves exactly as a call
to start() (which stops first and stops scanning), and both identity maps are
empty afterwards. -/
theorem refresh_invalid_restarts_and_clears (env : Env) (s : State)
    (hrun : s.manager = true)
    (hinv : ∃ p ∈ s.hids, env.validate p.2 = false) :
    refresh_if_needed env s = start env s ∧
    (refresh_if_needed env s).1.registry_entry_ids = [] ∧
    (refresh_if_needed env s).1.hids = [] := by
  have hloop : refresh_if_needed env s = start env s :=
    refresh_loop_invalid env s s.hids hinv
  refine ⟨hloop, ?_, ?_⟩
  · rw [hloop]
    cases hc : env.manager_create_succeeds <;> simp [start, stop, hrun, hc]
  · rw [hloop]
    cases hc : env.manager_create_succeeds <;> simp [start, stop, hrun, hc]

/-- Claim C5: calling start() on a running manager equals stop() followed by
start(), and both identity maps are empty right after start() returns. -/
theorem start_when_running_eq_stop_start (env : Env) (s : State)
    (hrun : s.manager = true) :
    start env s = start env (stop s).1 ∧
    (start env s).1.registry_entry_ids = [] ∧
    (start env s).1.hids = [] := by
  refine ⟨?_, ?_, ?_⟩
  · cases hc : env.manager_create_succeeds <;> simp [start, stop, hrun, hc]
  · cases hc : env.manager_create_succeeds <;> simp [start, stop, hrun, hc]
  · cases hc : env.manager_create_succeeds <;> simp [start, stop, hrun, hc]

/-- Claim C6: stop() is idempotent and never emits a device_removed signal,
also for devices cleared by the first stop(). -/
theorem stop_idempotent_no_removal (s : State) :
    (stop (stop s).1).1 = (stop s).1 ∧
    (stop s).2.removed = [] ∧
    (stop (stop s).1).2.removed = [] :=
  ⟨rfl, rfl, rfl⟩

/-- Claim C7: when the device_detecting pre-filter vetoes a native handle, the
arrival callback leaves the state unchanged and emits nothing. -/
theorem vetoed_arrival_no_state_change (env : Env) (s : State) (d : IOHIDDeviceRef)
    (h : env.device_detecting d = false) :
    device_matching_callback env s d = (s, Output.empty) := by
  by_cases hd : d = 0
  · simp [device_matching_callback, hd]
  · simp [device_matching_callback, hd, h]

/-- Claim C8: every non-vetoed arrival whose identity resolves records the
handle-to-identity entry, also when a logical device already exists for that
identity. -/
theorem arrival_records_handle_mapping (env : Env) (s : State) (d : IOHIDDeviceRef)
    (rid : RegistryEntryId)
    (h0 : d ≠ 0) (h1 : env.device_detecting d = true)
    (h2 : env.os_find_registry_entry_id d = some rid) :
    mapFind d (device_matching_callback env s d).1.registry_entry_ids = some rid := by
  cases hh : mapFind rid s.hids with
  | none =>
    rw [matching_callback_new env s d rid h0 h1 h2 hh]
    exact mapFind_upsert_self d rid s.registry_entry_ids
  | some x =>
    rw [matching_callback_existing env s d rid x h0 h1 h2 hh]
    exact mapFind_upsert_self d rid s.registry_entry_ids

/-- Claim C9: when IOHIDManagerCreate fails inside start(), the manager stays
stopped with no timer and emits nothing, and a later start() with a working
collaborator succeeds. -/
theorem start_create_failure_stays_stopped (env env2 : Env) (s : State)
    (hwf : s.refresh_timer = true → s.manager = true)
    (hfail : env.manager_create_succeeds = false)
    (hretry : env2.manager_create_succeeds = true) :
    (start env s).1.manager = false ∧
    (start env s).1.refresh_timer = false ∧
    (start env s).2 = Output.empty ∧
    (start env2 (start env s).1).1.manager = true := by
  have hmain : (start env s).1.manager = false := by
    cases hm : s.manager <;> simp [start, stop, hm, hfail]
  refine ⟨hmain, ?_, ?_, ?_⟩
  · cases hm : s.manager with
    | true => simp [start, stop, hm, hfail]
    | false =>
      have ht : s.refresh_timer = false := by
        cases ht : s.refresh_timer with
        | false => rfl
        | true => rw [hwf ht] at hm; exact absurd hm (by simp)
      simp [start, stop, hm, hfail, ht]
  · cases hm : s.manager <;> simp [start, stop, hm, hfail]
  · simp [start, hmain, hretry]

/-- Concrete collaborators for evaluation: the pre-filter vetoes handle 3, the
OS maps handle d to registry entry d / 10, session creation succeeds, and the
device with native handle 7 fails validate(). -/
def envA : Env :=
  { device_detecting := fun d => d != 3,
    os_find_registry_entry_id := fun d => if d = 0 then none else some (d / 10),
    manager_create_succeeds := true,
    validate := fun hid => hid.device != 7 }

/-- Collaborators identical to envA except that IOHIDManagerCreate fails. -/
def envFail : Env :=
  { device_detecting := fun d => d != 3,
    os_find_registry_entry_id := fun d => if d = 0 then none else some (d / 10),
    manager_create_succeeds := false,
    validate := fun hid => hid.device != 7 }

/-- A running manager with empty maps. -/
def cleanRunning : State :=
  { manager := true, registry_entry_ids := [], hids := [], refresh_timer := true }

/-- A running manager tracking a two-interface device (handles 101 and 102,
identity 10) and a one-interface device (handle 205, identity 20). -/
def dirtyRunning : State :=
  { manager := true,
    registry_entry_ids := [(101, 10), (102, 10), (205, 20)],
    hids := [(10, { device := 101, registry_entry_id := 10, removed := false }),
             (20, { device := 205, registry_entry_id := 20, removed := false })],
    refresh_timer := true }

/-- A running manager tracking one device whose handle 7 fails validate(). -/
def staleRunning : State :=
  { manager := true,
    registry_entry_ids := [(71, 7)],
    hids := [(7, { device := 7, registry_entry_id := 7, removed := false })],
    refresh_timer := true }

theorem arrival_dedup_single_detection_witness :
    (([101, 102, 101] : List IOHIDDeviceRef) ≠ [] ∧
     (∀ d ∈ ([101, 102, 101] : List IOHIDDeviceRef),
       d ≠ 0 ∧ envA.device_detecting d = true ∧
       envA.os_find_registry_entry_id d = some 10) ∧
     mapFind 10 cleanRunning.hids = none) ∧
    ((run_arrivals envA cleanRunning [101, 102, 101]).2.detected.length = 1 ∧
     countKey 10 (run_arrivals envA cleanRunning [101, 102, 101]).1.hids = 1) :=
  ⟨⟨by decide, by decide, by decide⟩,
   arrival_dedup_single_detection envA cleanRunning 10 [101, 102, 101]
     (by decide) (by decide) (by decide)⟩

theorem removal_purges_all_handles_witness :
    ((101 : IOHIDDeviceRef) ≠ 0 ∧
     mapFind 101 dirtyRunning.registry_entry_ids = some 10) ∧
    ((device_removal_callback envA dirtyRunning 101).1.registry_entry_ids.all
      (fun p => p.2 != 10)) = true :=
  ⟨⟨by decide, by decide⟩,
   removal_purges_all_handles envA dirtyRunning 101 10 (by decide) (by decide)⟩

theorem removal_cached_lookup_and_notifies_witness :
    ((102 : IOHIDDeviceRef) ≠ 0 ∧
     mapFind 102 dirtyRunning.registry_entry_ids = some 10 ∧
     mapFind 10 dirtyRunning.hids =
       some { device := 101, registry_entry_id := 10, removed := false }) ∧
    (device_removal_callback envA dirtyRunning 102 =
       device_removal_callback envFail dirtyRunning 102 ∧
     mapFind 10 (device_removal_callback envA dirtyRunning 102).1.hids = none ∧
     (device_removal_callback envA dirtyRunning 102).2.removed =
       [{ device := 101, registry_entry_id := 10, removed := true }]) :=
  ⟨⟨by decide, by decide, by decide⟩,
   removal_cached_lookup_and_notifies envA envFail dirtyRunning 102 10
     { device := 101, registry_entry_id := 10, removed := false }
     (by decide) (by decide) (by decide)⟩

theorem refresh_invalid_restarts_and_clears_witness :
    (staleRunning.manager = true ∧
     (∃ p ∈ staleRunning.hids, envA.validate p.2 = false)) ∧
    (refresh_if_needed envA staleRunning = start envA staleRunning ∧
     (refresh_if_needed envA staleRunning).1.registry_entry_ids = [] ∧
     (refresh_if_needed envA staleRunning).1.hids = []) :=
  ⟨⟨by decide, by decide⟩,
   refresh_invalid_restarts_and_clears envA staleRunning (by decide) (by decide)⟩

theorem start_when_running_eq_stop_start_witness :
    (dirtyRunning.manager = true) ∧
    (start envA dirtyRunning = start envA (stop dirtyRunning).1 ∧
     (start envA dirtyRunning).1.registry_entry_ids = [] ∧
     (start envA dirtyRunning).1.hids = []) :=
  ⟨by decide, start_when_running_eq_stop_start envA dirtyRunning (by decide)⟩

theorem vetoed_arrival_no_state_change_witness :
    (envA.device_detecting 3 = false) ∧
    device_matching_callback envA dirtyRunning 3 = (dirtyRunning, Output.empty) :=
  ⟨by decide, vetoed_arrival_no_state_change envA dirtyRunning 3 (by decide)⟩

theorem arrival_records_handle_mapping_witness :
    ((102 : IOHIDDeviceRef) ≠ 0 ∧ envA.device_detecting 102 = true ∧
     envA.os_find_registry_entry_id 102 = some 10) ∧
    mapFind 102 (device_matching_callback envA dirtyRunning 102).1.registry_entry_ids =
      some 10 :=
  ⟨⟨by decide, by decide, by decide⟩,
   arrival_records_handle_mapping envA dirtyRunning 102 10
     (by decide) (by decide) (by decide)⟩

theorem start_create_failure_stays_stopped_witness :
    ((dirtyRunning.refresh_timer = true → dirtyRunning.manager = true) ∧
     envFail.manager_create_succeeds = false ∧
     envA.manager_create_succeeds = true) ∧
    ((start envFail dirtyRunning).1.manager = false ∧
     (start envFail dirtyRunning).1.refresh_timer = false ∧
     (start envFail dirtyRunning).2 = Output.empty ∧
     (start envA (start envFail dirtyRunning).1).1.manager = true) :=
  ⟨⟨by decide, by decide, by decide⟩,
   start_create_failure_stays_stopped envFail envA dirtyRunning
     (by decide) (by decide) (by decide)⟩

theorem removal_unknown_handle_noop_witness :
    (mapFind 999 dirtyRunning.registry_entry_ids = none) ∧
    device_removal_callback envA dirtyRunning 999 = (dirtyRunning, Output.empty) :=
  ⟨by decide, removal_unknown_handle_noop envA dirtyRunning 999 (by decide)⟩

end HidManager
